import Mathlib

/-
Verification of the DiVA firmware top-level control loop
(src/firmware/DiVA-fw/main.c): interrupt dispatcher, USB CDC echo task,
connection-state blink task, and button watch, shallowly embedded as pure
Lean functions over explicit state and event traces.
-/

set_option linter.unusedVariables false

/-! ## Constants from the source -/

/-- From main.c: `#define USB_INTERRUPT 4`. -/
def USB_INTERRUPT : Nat := 4

/-- Modelled from the spec: `TIMER0_INTERRUPT` comes from the generated CSR
header `generated/csr.h`, which is not part of the repository source; the spec
only says the tick source occupies one interrupt bit distinct from the USB bit.
Modelled as bit 1. The theorems below do not depend on the particular value. -/
def TIMER0_INTERRUPT : Nat := 1

/-- From main.c: blink pattern enum, device not mounted. -/
def BLINK_NOT_MOUNTED : Nat := 250

/-- From main.c: blink pattern enum, device mounted. -/
def BLINK_MOUNTED : Nat := 1000

/-- From main.c: blink pattern enum, device suspended. -/
def BLINK_SUSPENDED : Nat := 2500

/-- Modelled from the spec: `BUTTON_A_HOLD` comes from a generated hardware
header not present in the repository source; the spec says a specific bit
pattern of the raw button register denotes the hold gesture.  Modelled as a
single bit (bit 0).  The counterexample below is robust to the choice: for any
nonzero pattern there is a non-equal sample with nonzero intersection. -/
def BUTTON_A_HOLD : Nat := 1

/-! ## Interrupt dispatcher (isr) -/

/-- Observable state touched by `isr` in main.c: the `system_ticks` counter
(a `uint32_t`, kept reduced modulo `2^32`), the sequence of values written to
the timer acknowledge register `timer0_ev_pending_write`, and the number of
forwarding calls made to the USB stack handler `tud_int_handler`. -/
structure IsrState where
  system_ticks : Nat
  ack_writes : List Nat
  usb_calls : Nat
deriving DecidableEq, Repr

/-- Shallow embedding of `isr` from main.c.  `pending` and `mask` are the
values returned by `irq_pending()` and `irq_getmask()`; `irqs` is their
bitwise AND.  If the USB bit is set, control is forwarded to the USB stack
(recorded as a call count); if the timer bit is set, `system_ticks` is
incremented (uint32 wraparound) and then `1` is written to the timer
acknowledge register. -/
def isr (pending mask : Nat) (s : IsrState) : IsrState :=
  let irqs := pending &&& mask
  let s1 := if irqs &&& (1 <<< USB_INTERRUPT) ≠ 0 then
      { s with usb_calls := s.usb_calls + 1 } else s
  if irqs &&& (1 <<< TIMER0_INTERRUPT) ≠ 0 then
    { s1 with system_ticks := (s1.system_ticks + 1) % 2 ^ 32,
              ack_writes := s1.ack_writes ++ [1] }
  else s1

/-- A sequence of back-to-back `isr` invocations, each with its own
`(pending, mask)` pair, with no loop-body execution in between. -/
def runIsr (l : List (Nat × Nat)) (s : IsrState) : IsrState :=
  l.foldl (fun s pm => isr pm.1 pm.2 s) s

/-! ## USB CDC echo task (cdc_task) -/

/-- Transmission-side events produced by the CDC tasks: a `tud_cdc_write`
call carrying the bytes passed, or a `tud_cdc_write_flush` call. -/
inductive CdcEvent where
  | write (bs : List Nat)
  | flush
deriving DecidableEq, Repr

/-- Total number of data bytes handed to `tud_cdc_write` in a trace. -/
def bytesWritten : List CdcEvent → Nat
  | [] => 0
  | CdcEvent.write bs :: rest => bs.length + bytesWritten rest
  | CdcEvent.flush :: rest => bytesWritten rest

/-- Number of flush calls in a trace. -/
def flushCalls : List CdcEvent → Nat
  | [] => 0
  | CdcEvent.write _ :: rest => flushCalls rest
  | CdcEvent.flush :: rest => flushCalls rest + 1

/-- Shallow embedding of `cdc_task` from main.c.  `avail` is the value
returned by the external oracle `tud_cdc_available()`, and `readResult` the
byte sequence deposited into `buf` by `tud_cdc_read(buf, 64)` (its length is
the returned `count`; the API contract bounds it by 64).  The source keeps the
two oracles independent, so they are independent parameters here.  When
`avail` is nonzero the task writes back exactly the bytes read and then
flushes; otherwise it does nothing. -/
def cdc_task (avail : Nat) (readResult : List Nat) : List CdcEvent :=
  if avail ≠ 0 then [CdcEvent.write readResult, CdcEvent.flush] else []

/-! ## Device / CDC callbacks and the connection state -/

/-- Blink-task private state from main.c: `start_ms` (last-toggle timestamp,
uint32), `led_state` and the greeting counter `count` (both `static`). -/
structure BlinkState where
  start_ms : Nat
  led_state : Bool
  count : Nat
deriving DecidableEq, Repr

/-- Whole-program mutable state relevant to the callbacks: the blink period
variable `blink_interval_ms`, the blink task's private state, and the tick
counter. -/
structure FwState where
  blink_interval_ms : Nat
  blink : BlinkState
  system_ticks : Nat
deriving DecidableEq, Repr

/-- Initial state at power-on, from the initializers in main.c:
`blink_interval_ms = BLINK_NOT_MOUNTED`, `start_ms = 0`,
`led_state = false`, `count = 0`. -/
def fwInit : FwState :=
  { blink_interval_ms := BLINK_NOT_MOUNTED
    blink := { start_ms := 0, led_state := false, count := 0 }
    system_ticks := 0 }

/-- Embedding of `tud_mount_cb` from main.c. -/
def tud_mount_cb (s : FwState) : FwState :=
  { s with blink_interval_ms := BLINK_MOUNTED }

/-- Embedding of `tud_umount_cb` from main.c. -/
def tud_umount_cb (s : FwState) : FwState :=
  { s with blink_interval_ms := BLINK_NOT_MOUNTED }

/-- Embedding of `tud_suspend_cb` from main.c: the `remote_wakeup_en` flag is
explicitly discarded (`(void) remote_wakeup_en`). -/
def tud_suspend_cb (remote_wakeup_en : Bool) (s : FwState) : FwState :=
  { s with blink_interval_ms := BLINK_SUSPENDED }

/-- Embedding of `tud_resume_cb` from main.c. -/
def tud_resume_cb (s : FwState) : FwState :=
  { s with blink_interval_ms := BLINK_MOUNTED }

/-- Embedding of `tud_cdc_line_state_cb` from main.c: all three parameters
are discarded and the body is empty (the `if (dtr)` has empty branches). -/
def tud_cdc_line_state_cb (itf : Nat) (dtr rts : Bool) (s : FwState) : FwState :=
  s

/-- Embedding of `tud_cdc_rx_cb` from main.c: the parameter is discarded and
the body is empty. -/
def tud_cdc_rx_cb (itf : Nat) (s : FwState) : FwState :=
  s

/-- Specification-side connection state, following the spec's data model:
{NOT_MOUNTED, MOUNTED, SUSPENDED}. -/
inductive ConnState where
  | NOT_MOUNTED
  | MOUNTED
  | SUSPENDED
deriving DecidableEq, Repr

/-- Specification-side transport events: mount, unmount, suspend with the
remote-wakeup flag, resume. -/
inductive UsbEvent where
  | mount
  | umount
  | susp (remote_wakeup_en : Bool)
  | resume
deriving DecidableEq, Repr

/-- Specification-side blink-period table, following the spec's words:
NOT_MOUNTED maps to 250, MOUNTED to 1000, SUSPENDED to 2500. -/
def specPeriod : ConnState → Nat
  | ConnState.NOT_MOUNTED => 250
  | ConnState.MOUNTED => 1000
  | ConnState.SUSPENDED => 2500

/-- Specification-side transition table, following the spec's words:
mount yields MOUNTED, unmount yields NOT_MOUNTED, suspend yields SUSPENDED,
resume yields MOUNTED, for every current state. -/
def specStep : ConnState → UsbEvent → ConnState
  | _, UsbEvent.mount => ConnState.MOUNTED
  | _, UsbEvent.umount => ConnState.NOT_MOUNTED
  | _, UsbEvent.susp _ => ConnState.SUSPENDED
  | _, UsbEvent.resume => ConnState.MOUNTED

/-- Dispatch of a transport event to the corresponding callback of main.c. -/
def applyEvent : UsbEvent → FwState → FwState
  | UsbEvent.mount => tud_mount_cb
  | UsbEvent.umount => tud_umount_cb
  | UsbEvent.susp f => tud_suspend_cb f
  | UsbEvent.resume => tud_resume_cb

/-! ## Blink task (led_blinking_task) -/

/-- uint32 wraparound subtraction, as performed by
`board_millis() - start_ms` on `uint32_t` operands. -/
def usub32 (a b : Nat) : Nat :=
  (a % 2 ^ 32 + (2 ^ 32 - b % 2 ^ 32)) % 2 ^ 32

/-- Output events of the blink task: a value written to the LED register via
`board_led_write`/`leds_out_write`, a greeting carrying the counter value
printed into the string, or a flush. -/
inductive BlinkEvent where
  | ledWrite (v : Nat)
  | greet (n : Nat)
  | flush
deriving DecidableEq, Repr

/-- Embedding of `board_led_write` from main.c: the value written to
`leds_out_write` is `state ? 1 : 0`. -/
def board_led_write (state : Bool) : Nat :=
  if state then 1 else 0

/-- Shallow embedding of `led_blinking_task` from main.c.  `interval` is the
current value of `blink_interval_ms`, `now` the value returned by
`board_millis()` (a uint32), `connected` the value returned by the external
oracle `tud_cdc_connected()`.  If the wraparound difference `now - start_ms`
is below the interval the task returns immediately; otherwise it advances
`start_ms` by exactly one interval, writes the current LED level, and — only
when `connected` — emits a greeting carrying the pre-increment counter value
followed by a flush, incrementing the counter; finally the LED level is
toggled. -/
def led_blinking_task (interval now : Nat) (connected : Bool)
    (s : BlinkState) : BlinkState × List BlinkEvent :=
  if usub32 now s.start_ms < interval then (s, [])
  else
    let start' := (s.start_ms + interval) % 2 ^ 32
    if connected then
      ({ start_ms := start', led_state := !s.led_state, count := s.count + 1 },
       [BlinkEvent.ledWrite (board_led_write s.led_state),
        BlinkEvent.greet s.count, BlinkEvent.flush])
    else
      ({ start_ms := start', led_state := !s.led_state, count := s.count },
       [BlinkEvent.ledWrite (board_led_write s.led_state)])

/-- One loop iteration's worth of inputs to the blink task: the current
`blink_interval_ms`, the current `board_millis()` reading, and the current
`tud_cdc_connected()` answer. -/
structure BlinkIn where
  interval : Nat
  now : Nat
  connected : Bool
deriving DecidableEq, Repr

/-- Run the blink task over a sequence of loop iterations, collecting the
emitted events in order. -/
def runBlink : List BlinkIn → BlinkState → BlinkState × List BlinkEvent
  | [], s => (s, [])
  | i :: rest, s =>
    let r := led_blinking_task i.interval i.now i.connected s
    let r2 := runBlink rest r.1
    (r2.1, r.2 ++ r2.2)

/-- The sequence of counter values contained in the greetings of a trace. -/
def greets : List BlinkEvent → List Nat :=
  List.filterMap fun e =>
    match e with
    | BlinkEvent.greet n => some n
    | _ => none

/-- Decidable version of: every iteration in the list finds its elapsed-time
gate passed (enough time elapsed) at the state it runs in. -/
def allFire : List BlinkIn → BlinkState → Bool
  | [], _ => true
  | i :: rest, s =>
    !(usub32 i.now s.start_ms < i.interval : Bool) &&
      allFire rest (led_blinking_task i.interval i.now i.connected s).1

/-! ## Button watch (main loop body) -/

/-- Shallow embedding of the button-watch fragment of the main loop:
`int b_val = button_raw_read(); if (b_val & BUTTON_A_HOLD)
reboot_ctrl_write(0xac);`.  Returns the list of values written to the reboot
control register during the iteration. -/
def buttonWatch (b_val : Nat) : List Nat :=
  if b_val &&& BUTTON_A_HOLD ≠ 0 then [0xac] else []

/-! ## Claims -/

/-- Claim C5: the blink period is a pure total function of the connection
state (NOT_MOUNTED maps to 250, MOUNTED to 1000, SUSPENDED to 2500), the
initial state at power-on is NOT_MOUNTED with period 250, and for every
(state, event) pair the mount callback yields MOUNTED (1000), the unmount
callback yields NOT_MOUNTED (250), the suspend callback yields SUSPENDED
(2500), the resume callback yields MOUNTED (1000), with no pair unhandled. -/
theorem c5_state_machine_total :
    fwInit.blink_interval_ms = specPeriod ConnState.NOT_MOUNTED ∧
    specPeriod ConnState.NOT_MOUNTED = 250 ∧
    specPeriod ConnState.MOUNTED = 1000 ∧
    specPeriod ConnState.SUSPENDED = 2500 ∧
    (∀ (st : ConnState) (e : UsbEvent) (fs : FwState),
      (applyEvent e fs).blink_interval_ms = specPeriod (specStep st e)) ∧
    (∀ (st : ConnState) (f : Bool),
      specStep st UsbEvent.mount = ConnState.MOUNTED ∧
      specStep st UsbEvent.umount = ConnState.NOT_MOUNTED ∧
      specStep st (UsbEvent.susp f) = ConnState.SUSPENDED ∧
      specStep st UsbEvent.resume = ConnState.MOUNTED) := by
  refine ⟨rfl, rfl, rfl, rfl, ?_, ?_⟩
  · intro st e fs
    cases e <;> rfl
  · intro st f
    exact ⟨rfl, rfl, rfl, rfl⟩

/-- Claim C8: invoking `cdc_task` when zero received bytes are available is a
no-op: the event trace is empty, so zero bytes are written and zero flush
calls are performed, and no state is touched. -/
theorem c8_cdc_noop_when_empty (readResult : List Nat) :
    cdc_task 0 readResult = [] ∧
    bytesWritten (cdc_task 0 readResult) = 0 ∧
    flushCalls (cdc_task 0 readResult) = 0 := by
  refine ⟨rfl, rfl, rfl⟩

/-- Claim C9: the line-state-changed callback (for every interface id, DTR,
RTS) and the data-received callback (for every interface id) leave the whole
program state — blink period, blink phase, greeting counter, tick counter —
unchanged; the suspend callback accepts both values of the
remote-wakeup-enabled flag, produces the same result for both, and changes
nothing except setting the blink period to the suspended value. -/
theorem c9_callbacks_no_action :
    (∀ (itf : Nat) (dtr rts : Bool) (s : FwState),
      tud_cdc_line_state_cb itf dtr rts s = s) ∧
    (∀ (itf : Nat) (s : FwState), tud_cdc_rx_cb itf s = s) ∧
    (∀ (f : Bool) (s : FwState),
      tud_suspend_cb f s = { s with blink_interval_ms := BLINK_SUSPENDED } ∧
      tud_suspend_cb f s = tud_suspend_cb (!f) s) := by
  refine ⟨fun _ _ _ _ => rfl, fun _ _ => rfl, fun _ _ => ⟨rfl, rfl⟩⟩

/-! ## Helper lemmas -/

/-- One `isr` invocation with the timer bit set in `pending AND mask`
increments `system_ticks` by 1 modulo `2^32` and appends one acknowledge
write, whatever the USB bit does. -/
lemma isr_timer_step (pending mask : Nat) (s : IsrState)
    (h : (pending &&& mask) &&& (1 <<< TIMER0_INTERRUPT) ≠ 0) :
    (isr pending mask s).system_ticks = (s.system_ticks + 1) % 2 ^ 32 ∧
    (isr pending mask s).ack_writes = s.ack_writes ++ [1] := by
  simp only [isr]
  by_cases hu : (pending &&& mask) &&& (1 <<< USB_INTERRUPT) ≠ 0 <;>
    simp [hu, h]

/-- Over a sequence of `isr` invocations that all have the timer bit set,
the tick counter advances by the length of the sequence modulo `2^32` and one
acknowledge write is recorded per invocation. -/
lemma runIsr_timer (l : List (Nat × Nat)) :
    ∀ s : IsrState, s.system_ticks < 2 ^ 32 →
    (∀ pm ∈ l, (pm.1 &&& pm.2) &&& (1 <<< TIMER0_INTERRUPT) ≠ 0) →
    (runIsr l s).system_ticks = (s.system_ticks + l.length) % 2 ^ 32 ∧
    (runIsr l s).ack_writes.length = s.ack_writes.length + l.length := by
  induction l with
  | nil =>
    intro s hs _
    exact ⟨(Nat.mod_eq_of_lt hs).symm, rfl⟩
  | cons pm rest ih =>
    intro s hs hall
    have hpm := hall pm (List.mem_cons_self _ _)
    have hstep := isr_timer_step pm.1 pm.2 s hpm
    have hlt : (isr pm.1 pm.2 s).system_ticks < 2 ^ 32 := by
      rw [hstep.1]; exact Nat.mod_lt _ (by norm_num)
    have hrest := ih (isr pm.1 pm.2 s) hlt
      (fun q hq => hall q (List.mem_cons_of_mem _ hq))
    have hrun : runIsr (pm :: rest) s = runIsr rest (isr pm.1 pm.2 s) := rfl
    constructor
    · rw [hrun, hrest.1, hstep.1, Nat.mod_add_mod]
      congr 1
      simp [List.length_cons]
      ring
    · rw [hrun, hrest.2, hstep.2]
      simp [List.length_append, List.length_cons]
      ring

/-- When the elapsed-time gate fails, `led_blinking_task` returns the state
unchanged with no output. -/
lemma blink_gate_fail (interval now : Nat) (conn : Bool) (s : BlinkState)
    (h : usub32 now s.start_ms < interval) :
    led_blinking_task interval now conn s = (s, []) := by
  unfold led_blinking_task
  rw [if_pos h]

/-- When the elapsed-time gate passes, the last-toggle timestamp advances by
exactly one interval (uint32 wraparound), the LED level is toggled, the output
begins with the LED write of the pre-toggle level, and the greeting (carrying
the pre-increment counter) plus flush appear exactly when connected. -/
lemma blink_gate_pass (interval now : Nat) (conn : Bool) (s : BlinkState)
    (h : ¬ usub32 now s.start_ms < interval) :
    led_blinking_task interval now conn s =
      ({ start_ms := (s.start_ms + interval) % 2 ^ 32,
         led_state := !s.led_state,
         count := if conn then s.count + 1 else s.count },
       BlinkEvent.ledWrite (board_led_write s.led_state)
         :: (if conn then [BlinkEvent.greet s.count, BlinkEvent.flush] else [])) := by
  unfold led_blinking_task
  rw [if_neg h]
  cases conn <;> rfl

/-- Over a run in which every iteration's gate passes and the interval is
constant, the timestamp advances by interval times the number of
iterations. -/
lemma runBlink_start_ms (interval : Nat) (l : List BlinkIn) :
    ∀ s : BlinkState, s.start_ms < 2 ^ 32 →
    (∀ i ∈ l, i.interval = interval) →
    allFire l s = true →
    (runBlink l s).1.start_ms = (s.start_ms + interval * l.length) % 2 ^ 32 := by
  induction l with
  | nil =>
    intro s hs _ _
    simpa [runBlink] using (Nat.mod_eq_of_lt hs).symm
  | cons i rest ih =>
    intro s hs hall hfire
    simp only [allFire, Bool.and_eq_true, Bool.not_eq_true',
      decide_eq_false_iff_not] at hfire
    have hi : i.interval = interval := hall i (List.mem_cons_self _ _)
    have hstep := blink_gate_pass i.interval i.now i.connected s hfire.1
    have hs1 : (led_blinking_task i.interval i.now i.connected s).1.start_ms
        = (s.start_ms + interval) % 2 ^ 32 := by
      rw [hstep, hi]
    have hlt : (led_blinking_task i.interval i.now i.connected s).1.start_ms
        < 2 ^ 32 := by
      rw [hs1]; exact Nat.mod_lt _ (by norm_num)
    have hrest := ih (led_blinking_task i.interval i.now i.connected s).1 hlt
      (fun q hq => hall q (List.mem_cons_of_mem _ hq)) hfire.2
    have hrun : (runBlink (i :: rest) s).1
        = (runBlink rest (led_blinking_task i.interval i.now i.connected s).1).1 := rfl
    rw [hrun, hrest, hs1, Nat.mod_add_mod]
    congr 1
    simp [List.length_cons, Nat.mul_succ]
    ring

/-- In one invocation of the blink task, the counter grows by exactly the
number of greetings emitted, and the greeting values form the contiguous
block starting at the old counter. -/
lemma blink_step_greets (interval now : Nat) (conn : Bool) (s : BlinkState) :
    (led_blinking_task interval now conn s).1.count =
      s.count + (greets (led_blinking_task interval now conn s).2).length ∧
    greets (led_blinking_task interval now conn s).2 =
      List.range' s.count (greets (led_blinking_task interval now conn s).2).length := by
  by_cases h : usub32 now s.start_ms < interval
  · rw [blink_gate_fail interval now conn s h]
    exact ⟨rfl, rfl⟩
  · rw [blink_gate_pass interval now conn s h]
    cases conn <;> simp [greets, List.range']

/-- Gluing two contiguous blocks of consecutive numbers gives one contiguous
block. -/
lemma range'_glue (m : Nat) (a b : List Nat)
    (ha : a = List.range' m a.length)
    (hb : b = List.range' (m + a.length) b.length) :
    a ++ b = List.range' m (a ++ b).length := by
  rw [List.length_append]
  conv_lhs => rw [ha, hb]
  rw [List.range'_append_1, Nat.add_comm]

/-- Over any run of the blink task, the counter grows by exactly the number
of greetings emitted and the greeting values form the contiguous block
starting at the initial counter. -/
lemma runBlink_greets (l : List BlinkIn) :
    ∀ s : BlinkState,
    (runBlink l s).1.count = s.count + (greets (runBlink l s).2).length ∧
    greets (runBlink l s).2 =
      List.range' s.count (greets (runBlink l s).2).length := by
  induction l with
  | nil => intro s; exact ⟨rfl, rfl⟩
  | cons i rest ih =>
    intro s
    have hstep := blink_step_greets i.interval i.now i.connected s
    have hrest := ih (led_blinking_task i.interval i.now i.connected s).1
    have hrun : runBlink (i :: rest) s =
        ((runBlink rest (led_blinking_task i.interval i.now i.connected s).1).1,
         (led_blinking_task i.interval i.now i.connected s).2 ++
           (runBlink rest (led_blinking_task i.interval i.now i.connected s).1).2) := rfl
    rw [hrun]
    have hsplit : greets ((led_blinking_task i.interval i.now i.connected s).2 ++
        (runBlink rest (led_blinking_task i.interval i.now i.connected s).1).2)
        = greets (led_blinking_task i.interval i.now i.connected s).2 ++
          greets (runBlink rest (led_blinking_task i.interval i.now i.connected s).1).2 := by
    -- filterMap distributes over append
      simp [greets]
    constructor
    · simp only [hsplit, List.length_append]
      rw [hrest.1, hstep.1]
      ring
    · simp only [hsplit]
      have hb := hrest.2
      rw [hstep.1] at hb
      exact range'_glue s.count _ _ hstep.2 hb

/-- Claim C1: in every `isr` invocation with the timer bit set in
`pending AND mask`, `system_ticks` increases by exactly 1 modulo `2^32` and
the timer acknowledge register is written (value 1); consequently, over any
sequence of N timer interrupts delivered back-to-back with no loop-body
execution in between, `system_ticks` increases by exactly N modulo `2^32`,
with one acknowledge write per interrupt — no lost and no double-counted
ticks. -/
theorem c1_tick_counter_exact :
    (∀ (pending mask : Nat) (s : IsrState),
      (pending &&& mask) &&& (1 <<< TIMER0_INTERRUPT) ≠ 0 →
      (isr pending mask s).system_ticks = (s.system_ticks + 1) % 2 ^ 32 ∧
      (isr pending mask s).ack_writes = s.ack_writes ++ [1]) ∧
    (∀ (l : List (Nat × Nat)) (s : IsrState),
      s.system_ticks < 2 ^ 32 →
      (∀ pm ∈ l, (pm.1 &&& pm.2) &&& (1 <<< TIMER0_INTERRUPT) ≠ 0) →
      (runIsr l s).system_ticks = (s.system_ticks + l.length) % 2 ^ 32 ∧
      (runIsr l s).ack_writes.length = s.ack_writes.length + l.length) :=
  ⟨isr_timer_step, fun l s hs hall => runIsr_timer l s hs hall⟩

/-- Witness for C1 at concrete inputs: pending = mask = 2 (the timer bit),
starting from zero ticks; one invocation yields 1 tick, three back-to-back
invocations yield 3 ticks and 3 acknowledge writes. -/
theorem c1_tick_counter_exact_witness :
    (isr 2 2 { system_ticks := 0, ack_writes := [], usb_calls := 0 }).system_ticks = 1 ∧
    (runIsr [(2, 2), (2, 2), (2, 2)]
      { system_ticks := 0, ack_writes := [], usb_calls := 0 }).system_ticks = 3 ∧
    (runIsr [(2, 2), (2, 2), (2, 2)]
      { system_ticks := 0, ack_writes := [], usb_calls := 0 }).ack_writes.length = 3 := by
  have h1 := c1_tick_counter_exact.1 2 2
    { system_ticks := 0, ack_writes := [], usb_calls := 0 } (by decide)
  have h2 := c1_tick_counter_exact.2 [(2, 2), (2, 2), (2, 2)]
    { system_ticks := 0, ack_writes := [], usb_calls := 0 } (by decide) (by decide)
  refine ⟨?_, ?_, ?_⟩
  · rw [h1.1]; decide
  · rw [h2.1]; decide
  · rw [h2.2]; decide

/-- Claim C2 counterexample: with bytes reported available (`avail = 1`) but
a read that returns 0 bytes, the invocation's trace is not empty and contains
a flush call, contradicting the claim that no write and no flush occur. -/
theorem c2_counterexample :
    cdc_task 1 [] ≠ [] ∧ CdcEvent.flush ∈ cdc_task 1 [] := by
  decide

/-- Claim C2 (amended): if the CDC read returns a byte count of 0 even though
bytes were reported available, `cdc_task` still calls write (with the empty
byte sequence) and still flushes; zero data bytes are transmitted. -/
theorem c2_zero_count_write_flush (avail : Nat) (h : avail ≠ 0) :
    cdc_task avail [] = [CdcEvent.write [], CdcEvent.flush] ∧
    bytesWritten (cdc_task avail []) = 0 ∧
    flushCalls (cdc_task avail []) = 1 := by
  simp [cdc_task, h, bytesWritten, flushCalls]

/-- Witness for C2 (amended) at `avail = 1`. -/
theorem c2_zero_count_write_flush_witness :
    cdc_task 1 [] = [CdcEvent.write [], CdcEvent.flush] ∧
    bytesWritten (cdc_task 1 []) = 0 :=
  ⟨(c2_zero_count_write_flush 1 (by decide)).1,
   (c2_zero_count_write_flush 1 (by decide)).2.1⟩

/-- Claim C3 counterexample: with `blink_interval_ms = BLINK_SUSPENDED`
(connection state SUSPENDED, not MOUNTED) and the connected oracle true, a
passed gate still emits the greeting — the code never checks the MOUNTED
state, contradicting the claimed iff. -/
theorem c3_counterexample :
    BLINK_SUSPENDED ≠ BLINK_MOUNTED ∧
    BlinkEvent.greet 0 ∈
      (led_blinking_task BLINK_SUSPENDED 2500 true
        { start_ms := 0, led_state := false, count := 0 }).2 := by
  decide

/-- Claim C3 (amended): in every invocation of `led_blinking_task` in which
the elapsed-time gate passes, the greeting (carrying the current counter
value, followed by a flush) is transmitted if and only if the CDC interface
reports an active logical connection — the code imposes no additional
MOUNTED-state condition; the greeting emission and the indicator toggle share
the same elapsed-time gate (when the gate fails neither occurs, when it
passes the toggle always occurs and the greeting exactly when connected). -/
theorem c3_greeting_gate (interval now : Nat) (conn : Bool) (s : BlinkState) :
    (¬ usub32 now s.start_ms < interval →
      (led_blinking_task interval now conn s).2 =
        BlinkEvent.ledWrite (board_led_write s.led_state)
          :: (if conn then [BlinkEvent.greet s.count, BlinkEvent.flush] else []) ∧
      (led_blinking_task interval now conn s).1.led_state = !s.led_state) ∧
    (usub32 now s.start_ms < interval →
      led_blinking_task interval now conn s = (s, [])) := by
  constructor
  · intro h
    rw [blink_gate_pass interval now conn s h]
    exact ⟨rfl, rfl⟩
  · intro h
    exact blink_gate_fail interval now conn s h

/-- Witness for C3 (amended): with interval 1000, now 1000, connected, from
the power-on blink state, the gate passes and the trace is the LED write
followed by greeting 0 and a flush; with now 10 the gate fails and nothing
happens. -/
theorem c3_greeting_gate_witness :
    (led_blinking_task 1000 1000 true
      { start_ms := 0, led_state := false, count := 0 }).2 =
      [BlinkEvent.ledWrite 0, BlinkEvent.greet 0, BlinkEvent.flush] ∧
    led_blinking_task 1000 10 true
      { start_ms := 0, led_state := false, count := 0 } =
      ({ start_ms := 0, led_state := false, count := 0 }, []) := by
  constructor
  · rw [(c3_greeting_gate 1000 1000 true
      { start_ms := 0, led_state := false, count := 0 }).1 (by decide) |>.1]
    decide
  · exact (c3_greeting_gate 1000 10 true
      { start_ms := 0, led_state := false, count := 0 }).2 (by decide)

/-- Claim C4 counterexample: the raw sample 3 is not equal to the hold
pattern, yet the reset sentinel 0xac is written — the code triggers on any
nonzero bitwise intersection with the hold pattern, not on exact equality. -/
theorem c4_counterexample :
    (3 : Nat) ≠ BUTTON_A_HOLD ∧ buttonWatch 3 = [0xac] := by
  decide

/-- Claim C4 (amended): in each loop iteration the reset sentinel 0xac is
written to the reset control register exactly once if the raw button sample
has a nonzero bitwise AND with the hold pattern — in particular when the
sample is exactly equal to the pattern — and no reset sentinel is written
when that intersection is zero. -/
theorem c4_button_watch (b_val : Nat) :
    (b_val = BUTTON_A_HOLD → buttonWatch b_val = [0xac]) ∧
    (b_val &&& BUTTON_A_HOLD ≠ 0 → buttonWatch b_val = [0xac]) ∧
    (b_val &&& BUTTON_A_HOLD = 0 → buttonWatch b_val = []) := by
  refine ⟨?_, ?_, ?_⟩
  · intro h
    subst h
    decide
  · intro h
    simp [buttonWatch, h]
  · intro h
    simp [buttonWatch, h]

/-- Witness for C4 (amended): the exact hold pattern triggers the sentinel
once; the sample 2 (no hold bit) triggers nothing. -/
theorem c4_button_watch_witness :
    buttonWatch BUTTON_A_HOLD = [0xac] ∧ buttonWatch 2 = [] :=
  ⟨(c4_button_watch BUTTON_A_HOLD).1 rfl, (c4_button_watch 2).2.2 (by decide)⟩

/-- Claim C6: in every invocation of `led_blinking_task`, if the unsigned
wraparound difference between the current millisecond reading and the
last-toggle timestamp is below the current blink period the task changes
nothing and writes nothing; otherwise the timestamp advances by exactly one
period (uint32 wraparound), not to the current reading; hence over any run
with a constant period in which every iteration's gate passes, the timestamp
after N iterations is the initial timestamp plus N periods modulo `2^32` —
toggle timestamps are spaced by exactly the period, with no drift. -/
theorem c6_blink_no_drift :
    (∀ (interval now : Nat) (conn : Bool) (s : BlinkState),
      usub32 now s.start_ms < interval →
      led_blinking_task interval now conn s = (s, [])) ∧
    (∀ (interval now : Nat) (conn : Bool) (s : BlinkState),
      ¬ usub32 now s.start_ms < interval →
      (led_blinking_task interval now conn s).1.start_ms =
        (s.start_ms + interval) % 2 ^ 32) ∧
    (∀ (interval : Nat) (l : List BlinkIn) (s : BlinkState),
      s.start_ms < 2 ^ 32 →
      (∀ i ∈ l, i.interval = interval) →
      allFire l s = true →
      (runBlink l s).1.start_ms = (s.start_ms + interval * l.length) % 2 ^ 32) := by
  refine ⟨blink_gate_fail, ?_, ?_⟩
  · intro interval now conn s h
    rw [blink_gate_pass interval now conn s h]
  · intro interval l s hs hall hfire
    exact runBlink_start_ms interval l s hs hall hfire

/-- Witness for C6: with period 250, a loop delayed to readings 300 and 500
(each gate passing) leaves the timestamp at exactly 2 times 250 = 500, and a
reading of 10 below the period changes nothing. -/
theorem c6_blink_no_drift_witness :
    led_blinking_task 250 10 false
      { start_ms := 0, led_state := false, count := 0 } =
      ({ start_ms := 0, led_state := false, count := 0 }, []) ∧
    (runBlink
      [{ interval := 250, now := 300, connected := false },
       { interval := 250, now := 500, connected := false }]
      { start_ms := 0, led_state := false, count := 0 }).1.start_ms = 500 := by
  constructor
  · exact c6_blink_no_drift.1 250 10 false
      { start_ms := 0, led_state := false, count := 0 } (by decide)
  · have h := c6_blink_no_drift.2.2 250
      [{ interval := 250, now := 300, connected := false },
       { interval := 250, now := 500, connected := false }]
      { start_ms := 0, led_state := false, count := 0 }
      (by decide) (by decide) (by decide)
    rw [h]; decide

/-- Claim C7: for any byte sequence of length at most the 64-byte echo buffer
capacity delivered in one CDC read (with bytes reported available), the trace
of `cdc_task` is exactly one write of those very bytes — same order, same
count — followed by one flush; short reads echo exactly the count read. -/
theorem c7_echo_fidelity (avail : Nat) (rx : List Nat)
    (ha : avail ≠ 0) (hlen : rx.length ≤ 64) :
    cdc_task avail rx = [CdcEvent.write rx, CdcEvent.flush] ∧
    bytesWritten (cdc_task avail rx) = rx.length ∧
    flushCalls (cdc_task avail rx) = 1 := by
  simp [cdc_task, ha, bytesWritten, flushCalls]

/-- Witness for C7: a short read of three bytes is echoed verbatim and then
flushed. -/
theorem c7_echo_fidelity_witness :
    cdc_task 3 [10, 20, 30] =
      [CdcEvent.write [10, 20, 30], CdcEvent.flush] ∧
    bytesWritten (cdc_task 3 [10, 20, 30]) = 3 :=
  ⟨(c7_echo_fidelity 3 [10, 20, 30] (by decide) (by decide)).1,
   (c7_echo_fidelity 3 [10, 20, 30] (by decide) (by decide)).2.1⟩

/-- Claim C10: starting from the power-on blink state (greeting counter 0),
over any sequence of loop iterations — with arbitrary periods, millisecond
readings and connection answers, including toggles occurring while not
logically connected — the counter values contained in the emitted greetings
are exactly 0, 1, 2, ... consecutive with no gaps, and the counter is
incremented exactly once per greeting actually emitted. -/
theorem c10_greeting_values_consecutive (l : List BlinkIn) :
    greets (runBlink l fwInit.blink).2 =
      List.range (greets (runBlink l fwInit.blink).2).length ∧
    (runBlink l fwInit.blink).1.count =
      (greets (runBlink l fwInit.blink).2).length := by
  have h := runBlink_greets l fwInit.blink
  have hc : fwInit.blink.count = 0 := rfl
  constructor
  · rw [List.range_eq_range']
    have := h.2
    rw [hc] at this
    exact this
  · rw [h.1, hc, Nat.zero_add]
